import Mathlib

/-!
Shallow embedding of `ocdeployer/images.py`: config normalization for the
"images" section of a `_cfg.yml` and the image-import orchestration around the
external `oc` command-line tool.

Modelling conventions:
* YAML-like configuration values are the inductive `Value` (strings, integers,
  sequences, mappings).  Python dicts are association lists `List (Value × Value)`;
  loaded YAML mappings have unique keys, and lookup takes the first match.
* Python exceptions (`ValueError`, `TypeError`) are `Except String`, carrying the
  exception message.
* Python's substring test `pat in s` on strings is `strContainsSub s pat`.
* Invocations of the external `oc` tool are recorded as `Invocation` values; the
  outcome of an `oc import-image` call (the only invocation whose failure the
  code inspects) is supplied as an `OcResult`.  An `ErrorReturnCode` raised by
  the `sh` library is `OcResult.failure stderr`.
-/

/-- Auxiliary scan for the Python substring test: `pat` occurs in the char list. -/
def strContainsAux (pat : List Char) : List Char → Bool
  | [] => pat.isEmpty
  | c :: rest => pat.isPrefixOf (c :: rest) || strContainsAux pat rest

/-- Python's `pat in s` for strings: substring containment. -/
def strContainsSub (s pat : String) : Bool :=
  strContainsAux pat.data s.data

/-- A YAML-like configuration value, as loaded from `_cfg.yml`. -/
inductive Value where
  | vstr (s : String)
  | vint (n : Int)
  | vlist (xs : List Value)
  | vdict (kvs : List (Value × Value))

/-- Python equality between a dict key (an arbitrary value) and a string literal:
only an equal string compares equal. -/
def keyIsStr : Value → String → Bool
  | .vstr s, t => s == t
  | _, _ => false

/-- Python `d[k]` / `k in d` for a string key `k`: first entry whose key equals `k`. -/
def dictGet (kvs : List (Value × Value)) (k : String) : Option Value :=
  (kvs.find? (fun kv => keyIsStr kv.1 k)).map (fun kv => kv.2)

/-- Python `isinstance(v, dict)`. -/
def isMapping : Value → Bool
  | .vdict _ => true
  | _ => false

/-- Python `isinstance(v, list)`. -/
def isSequence : Value → Bool
  | .vlist _ => true
  | _ => false

/-- A normalized image record, the dict `{"istag": ..., "from": ..., "envs": ...}`
appended to `parsed_images` by the parsers.  The Python key `"from"` is the field
`imageFrom` (`from` is reserved in Lean); after `validate_list_of_strs` the envs
value is known to be a list of strings and is stored as such. -/
structure ImageSpec where
  istag : String
  imageFrom : String
  envs : List String
deriving DecidableEq, Repr

/-- Message of the `ValueError` raised for a non-dict entry of a new-style list. -/
def entriesDictMsg : String := "entries in \x27images\x27 must be of type \x27dict\x27"

/-- Message of the `ValueError` raised for an unrecognized new-style entry shape. -/
def unknownSyntaxMsg : String := "Unknown syntax for \x27images\x27 section of config"

/-- Message of the `ValueError` raised when a new-style istag/from is not a string. -/
def istagFromTypeMsg : String := "\x27istag\x27 and \x27from\x27 must be a of type \x27string\x27"

/-- Message of the `ValueError` raised when an old-style key/value is not a string. -/
def oldStyleTypeMsg : String := "keys and values in \x27images\x27 must be a of type \x27string\x27"

/-- Append "latest" tag onto istag if it has no tag (`_parse_istag`, the string
case: `if ":" not in istag: return istag + ":latest"; return istag`). -/
def _parse_istag (istag : String) : String :=
  if strContainsSub istag ":" = false then istag ++ ":latest" else istag

/-- Message of the `TypeError` Python raises for `":" not in istag` on an integer
tag; the `TypeError: ` prefix marks it as a different exception class from the
parsers' `ValueError`s, whose messages are carried bare. -/
def intIterTypeErrorMsg : String := "TypeError: argument of type \x27int\x27 is not iterable"

mutual

/-- Python `repr` of a configuration value (modulo string-escaping, which no tag
below needs): quoted strings, decimal integers, bracketed lists, braced dicts.
`str` of a container equals its `repr`, with `repr` applied to the members. -/
def pyRepr : Value → String
  | .vstr s => "\x27" ++ s ++ "\x27"
  | .vint n => toString n
  | .vlist xs => "[" ++ pyReprList xs ++ "]"
  | .vdict kvs => "\x7b" ++ pyReprPairs kvs ++ "\x7d"

/-- Comma-separated `repr`s of a list's elements. -/
def pyReprList : List Value → String
  | [] => ""
  | [v] => pyRepr v
  | v :: rest => pyRepr v ++ ", " ++ pyReprList rest

/-- Comma-separated `repr(key): repr(value)` items of a dict. -/
def pyReprPairs : List (Value × Value) → String
  | [] => ""
  | [kv] => pyRepr kv.1 ++ ": " ++ pyRepr kv.2
  | kv :: rest => pyRepr kv.1 ++ ": " ++ pyRepr kv.2 ++ ", " ++ pyReprPairs rest

end

/-- Call-site behaviour of `_parse_istag` on the raw configuration value, reached
from lines 31 and 39 of `images.py` before the isinstance check of line 44.  For a
string it is exactly `_parse_istag`.  Otherwise Python evaluates `":" not in istag`
first: on an integer this raises `TypeError` (so the parsers' ValueError is never
reached); on a list or dict it is a membership test — `":"` equal to an element,
resp. to a key — after which a container holding a `":"` member is returned
unchanged (the line-44 isinstance check will then reject it), while a container
without one is stringified by the f-string, yielding
`str(container) ++ ":latest"`, a string the line-44 check accepts. -/
def _parse_istag_value : Value → Except String Value
  | .vstr s => .ok (.vstr (_parse_istag s))
  | .vint _ => .error intIterTypeErrorMsg
  | .vlist xs =>
      if xs.any (fun v => keyIsStr v ":") then .ok (.vlist xs)
      else .ok (.vstr (pyRepr (.vlist xs) ++ ":latest"))
  | .vdict kvs =>
      if kvs.any (fun kv => keyIsStr kv.1 ":") then .ok (.vdict kvs)
      else .ok (.vstr (pyRepr (.vdict kvs) ++ ":latest"))

/-- Modelled from the spec: `validate_list_of_strs` lives in `ocdeployer/utils.py`,
which is not among the provided sources.  Per the spec, `envs`, if present, must be
a sequence where every element is a string; a violation fails with a type error
naming the offending field.  On success the checked strings are returned. -/
def validate_list_of_strs (key sec : String) (value : Value) : Except String (List String) :=
  match value with
  | .vlist xs =>
      xs.mapM (fun v =>
        match v with
        | .vstr s => Except.ok s
        | _ => Except.error ("\x27" ++ key ++ "\x27 must be a list of strings in \x27" ++ sec ++ "\x27 config"))
  | _ => Except.error ("\x27" ++ key ++ "\x27 must be a list of strings in \x27" ++ sec ++ "\x27 config")

/-- Lines 44-48 of `images.py`, common to both new-style branches:
`if not isinstance(istag, str) or not isinstance(_from, str): raise ValueError(...)`,
then `validate_list_of_strs("envs", "images", envs)`, then append the record. -/
def finish_entry (istag fromV envsV : Value) : Except String ImageSpec :=
  match istag, fromV with
  | .vstr i, .vstr f =>
      match validate_list_of_strs "envs" "images" envsV with
      | .error e => .error e
      | .ok es => .ok { istag := i, imageFrom := f, envs := es }
  | _, _ => .error istagFromTypeMsg

/-- One iteration of the `for img in images` loop of `_parse_new_style`.
The Python guard `len(img.keys()) >= 2 and all(k in img for k in ["istag", "from"])`
is rendered by matching on the two lookups (present iff `dictGet` is `some`) plus
the length test; when either key is absent, the Python `elif` guard
`len(img.keys()) == 1 and all(k not in img for k in ["istag", "from", "envs"])`
selects the short form, else the unknown-syntax error. -/
def _parse_new_style_entry (img : Value) : Except String ImageSpec :=
  match img with
  | .vdict kvs =>
      match dictGet kvs "istag", dictGet kvs "from" with
      | some istagV, some fromV =>
          if 2 ≤ kvs.length then
            match _parse_istag_value istagV with
            | .error e => .error e
            | .ok istag => finish_entry istag fromV ((dictGet kvs "envs").getD (.vlist []))
          else .error unknownSyntaxMsg
      | _, _ =>
          match kvs with
          | [kv] =>
              if (dictGet [kv] "istag").isSome || (dictGet [kv] "from").isSome
                  || (dictGet [kv] "envs").isSome then
                .error unknownSyntaxMsg
              else
                match _parse_istag_value kv.1 with
                | .error e => .error e
                | .ok istag => finish_entry istag kv.2 (.vlist [])
          | _ => .error unknownSyntaxMsg
  | _ => .error entriesDictMsg

/-- Handles new-style images config syntax (`_parse_new_style`): the loop appends
into `parsed_images`; a raised exception aborts the whole call, losing the
partial list, which is exactly `mapM`. -/
def _parse_new_style (images : List Value) : Except String (List ImageSpec) :=
  images.mapM _parse_new_style_entry

/-- Handles old-style images config (`_parse_old_style`): iterate the mapping's
items, require string key and value, normalize the key with `_parse_istag`,
environments always empty. -/
def _parse_old_style (images : List (Value × Value)) : Except String (List ImageSpec) :=
  images.mapM (fun kv =>
    match kv.1, kv.2 with
    | .vstr istag, .vstr f => .ok { istag := _parse_istag istag, imageFrom := f, envs := [] }
    | _, _ => .error oldStyleTypeMsg)

/-- `parse_config`: dispatch on the type of `config["images"]`; a dict goes to the
old-style parser, a list to the new-style parser, and any other present value —
like a missing key — falls through to `return []`. -/
def parse_config (config : List (Value × Value)) : Except String (List ImageSpec) :=
  match dictGet config "images" with
  | some (.vdict kvs) => _parse_old_style kvs
  | some (.vlist xs) => _parse_new_style xs
  | some _ => .ok []
  | none => .ok []

/-- Outcome of an `oc import-image` invocation: success, or the `ErrorReturnCode`
raised by `sh` (since the call passes `_reraise=True`), carrying its stderr text. -/
inductive OcResult where
  | success
  | failure (stderr : String)

/-- An invocation of the external `oc` tool.
`importImage istag imageFrom` is `oc import-image <istag> --from=<imageFrom> --confirm --scheduled=True`;
`tagImage imageFrom istag` is `oc tag --scheduled=True --source=docker <imageFrom> <istag>`. -/
inductive Invocation where
  | importImage (istag imageFrom : String)
  | tagImage (imageFrom istag : String)
deriving DecidableEq, Repr

/-- A log record emitted by the importer: the duplicate-import warning, the
re-tagging warning, and the environment-gating info message of `import_images`. -/
inductive LogEvent where
  | warnAlreadyImported (istag : String)
  | warnRetag (istag : String)
  | infoSkip (istag : String)
deriving DecidableEq, Repr

/-- The stderr phrase `do_import` recognizes as a tag-to-source binding conflict. -/
def conflictPhrase : String := "use the \x27tag\x27 command if you want to change the source"

/-- `ImageImporter._retag_image`: issue `oc tag --scheduled=True --source=docker <from> <istag>`. -/
def _retag_image (istag imageFrom : String) : List Invocation :=
  [Invocation.tagImage imageFrom istag]

/-- `ImageImporter.do_import`.  `st` is the class attribute `imported_istags` on
entry; the returned `Except String (List String)` is the importer state on normal
return, or `Except.error` for an exception propagating to the caller.  The second
and third components are the `oc` invocations issued and the log records emitted,
in order.  Mirrors the source: warn (only) when the istag is already recorded;
always issue the import invocation; on `ErrorReturnCode` log the re-tagging
warning and, when the stderr contains `conflictPhrase`, call `_retag_image`;
the handler catches `ErrorReturnCode` in all cases, so no error is returned, and
no branch appends to `imported_istags`. -/
def do_import (st : List String) (istag imageFrom : String) (result : OcResult) :
    Except String (List String) × List Invocation × List LogEvent :=
  let warnLogs := if st.contains istag then [LogEvent.warnAlreadyImported istag] else []
  match result with
  | .success => (.ok st, [.importImage istag imageFrom], warnLogs)
  | .failure stderr =>
      if strContainsSub stderr conflictPhrase then
        (.ok st, [.importImage istag imageFrom] ++ _retag_image istag imageFrom,
          warnLogs ++ [LogEvent.warnRetag istag])
      else
        (.ok st, [.importImage istag imageFrom], warnLogs ++ [LogEvent.warnRetag istag])

/-- Body of the `for img_data in images` loop of `import_images`:
`if not img_data["envs"] or any(e in env_names for e in img_data["envs"])` then
`do_import`, else log the skip at info level.  `res` supplies the outcome of the
`oc import-image` invocation for a given (istag, from) pair. -/
def import_step (res : String → String → OcResult) (env_names : List String)
    (st : List String) (spec : ImageSpec) :
    Except String (List String) × List Invocation × List LogEvent :=
  if spec.envs.isEmpty || spec.envs.any (fun e => env_names.contains e) then
    do_import st spec.istag spec.imageFrom (res spec.istag spec.imageFrom)
  else
    (.ok st, [], [LogEvent.infoSkip spec.istag])

/-- The `for` loop of `import_images` over the already-parsed list: sequential,
stopping (and propagating) at the first error, concatenating invocation and log
traces. -/
def run_imports (res : String → String → OcResult) (env_names : List String)
    (st : List String) :
    List ImageSpec → Except String (List String) × List Invocation × List LogEvent
  | [] => (.ok st, [], [])
  | spec :: rest =>
      match import_step res env_names st spec with
      | (.ok st2, invs, logs) =>
          match run_imports res env_names st2 rest with
          | (out, invs2, logs2) => (out, invs ++ invs2, logs ++ logs2)
      | (.error e, invs, logs) => (.error e, invs, logs)

/-- `import_images`: parse the config first; a parsing exception propagates before
the loop runs (so before any `oc` invocation); otherwise run the loop. -/
def import_images (res : String → String → OcResult) (config : List (Value × Value))
    (env_names : List String) (st : List String) :
    Except String (List String) × List Invocation × List LogEvent :=
  match parse_config config with
  | .error e => (.error e, [], [])
  | .ok images => run_imports res env_names st images

/-- An external-tool environment where every import invocation succeeds. -/
def res0 : String → String → OcResult := fun _ _ => OcResult.success

theorem strContainsAux_append_right (pat l₁ l₂ : List Char)
    (h : strContainsAux pat l₂ = true) : strContainsAux pat (l₁ ++ l₂) = true := by
  induction l₁ with
  | nil => simpa using h
  | cons c rest ih => simp [strContainsAux, ih]

/-- A string with ":latest" appended contains a ":". -/
theorem strContains_append_latest (t : String) :
    strContainsSub (t ++ ":latest") ":" = true := by
  unfold strContainsSub
  rw [String.data_append]
  exact strContainsAux_append_right _ _ _ (by decide)

/-- Claim C7: a tag string without ":" is normalized by appending ":latest"; a tag
string containing ":" is returned unchanged; and both the legacy-mapping parser
and the sequence parser (long form shown) route the tag through `_parse_istag`
and store the source unchanged. -/
theorem parse_istag_normalization :
    (∀ t : String, strContainsSub t ":" = false → _parse_istag t = t ++ ":latest") ∧
    (∀ t : String, strContainsSub t ":" = true → _parse_istag t = t) ∧
    (∀ t s : String, _parse_old_style [(Value.vstr t, Value.vstr s)] =
      .ok [{ istag := _parse_istag t, imageFrom := s, envs := [] }]) ∧
    (∀ t s : String,
      _parse_new_style [Value.vdict [(Value.vstr "istag", Value.vstr t), (Value.vstr "from", Value.vstr s)]] =
        .ok [{ istag := _parse_istag t, imageFrom := s, envs := [] }]) := by
  refine ⟨fun t h => ?_, fun t h => ?_, fun t s => rfl, fun t s => rfl⟩
  · simp [_parse_istag, h]
  · simp [_parse_istag, h]

/-- Witness for C7 at concrete tags: "foo" has no ":" and normalizes to
"foo:latest"; "bar:v1" has a ":" and is unchanged. -/
theorem parse_istag_normalization_witness :
    (strContainsSub "foo" ":" = false ∧ _parse_istag "foo" = "foo" ++ ":latest") ∧
    (strContainsSub "bar:v1" ":" = true ∧ _parse_istag "bar:v1" = "bar:v1") :=
  ⟨⟨by decide, parse_istag_normalization.1 "foo" (by decide)⟩,
   ⟨by decide, parse_istag_normalization.2.1 "bar:v1" (by decide)⟩⟩

/-- Claim C10: tag normalization is idempotent — the first application either
leaves a ":"-containing tag unchanged or produces one ending in ":latest", and a
second application never modifies a tag containing ":". -/
theorem parse_istag_idempotent (t : String) :
    _parse_istag (_parse_istag t) = _parse_istag t := by
  by_cases h : strContainsSub t ":" = true
  · simp [_parse_istag, h]
  · have h' : strContainsSub t ":" = false := by simpa using h
    simp [_parse_istag, h', strContains_append_latest t]

/-- Claim C9: for any (tag, source) pair of strings, the legacy mapping entry
`{tag: source}` and the current long-form entry `{istag: tag, from: source}` with
no envs yield the same single ImageSpec — normalized tag, unchanged source,
empty environments. -/
theorem old_style_new_style_equiv (t s : String) :
    _parse_old_style [(Value.vstr t, Value.vstr s)] =
      .ok [{ istag := _parse_istag t, imageFrom := s, envs := [] }] ∧
    _parse_new_style [Value.vdict [(Value.vstr "istag", Value.vstr t), (Value.vstr "from", Value.vstr s)]] =
      .ok [{ istag := _parse_istag t, imageFrom := s, envs := [] }] :=
  ⟨rfl, rfl⟩

/-- Counterexample to claim C3: a config whose images section is a string is not
rejected — `parse_config` returns the empty list with no error, because the
isinstance dispatch has no else-branch and falls through to `return []`. -/
theorem parse_config_scalar_images_cex :
    parse_config [(Value.vstr "images", Value.vstr "oops")] = .ok [] := rfl

/-- Claim C3 as amended: when the images section is present but neither a mapping
nor a sequence, `parse_config` silently returns the empty list (no error is
raised and no import can be attempted for it). -/
theorem parse_config_scalar_images_ok_empty (config : List (Value × Value)) (v : Value)
    (hget : dictGet config "images" = some v)
    (hm : isMapping v = false) (hs : isSequence v = false) :
    parse_config config = .ok [] := by
  unfold parse_config
  rw [hget]
  cases v <;> simp_all [isMapping, isSequence]

/-- Witness for the amended C3 at a concrete config whose images section is the
number 5. -/
theorem parse_config_scalar_images_ok_empty_witness :
    parse_config [(Value.vstr "images", Value.vint 5)] = .ok [] :=
  parse_config_scalar_images_ok_empty [(Value.vstr "images", Value.vint 5)]
    (Value.vint 5) rfl rfl rfl

/-- Counterexample to claim C4: an entry whose istag and from are the empty
string is accepted, not rejected — the parsers only check `isinstance(..., str)`,
and the empty string is a string (the empty istag even gets normalized to
":latest"). -/
theorem parse_empty_strings_accepted_cex :
    _parse_new_style [Value.vdict [(Value.vstr "istag", Value.vstr ""), (Value.vstr "from", Value.vstr "")]] =
      .ok [{ istag := ":latest", imageFrom := "", envs := [] }] := rfl

/-- Claim C4 as amended: emptiness is never checked — entries whose tag or source
is any string, the empty string included, are accepted.  The string check itself
is uneven: an old-style non-string tag or source, and a new-style non-string
source, fail with the ValueError naming the fields, but a new-style non-string
tag escapes it — an integer tag raises a bare TypeError from the ":" membership
test (before the isinstance check), a list tag without a ":" element is silently
accepted after f-string stringification, and only a list tag holding a ":"
element reaches the field-naming ValueError. -/
theorem parse_image_entry_string_typing :
    (∀ t s : String, _parse_old_style [(Value.vstr t, Value.vstr s)] =
      .ok [{ istag := _parse_istag t, imageFrom := s, envs := [] }]) ∧
    (∀ (n : Int) (s : String), _parse_old_style [(Value.vint n, Value.vstr s)] =
      .error oldStyleTypeMsg) ∧
    (∀ (t : String) (n : Int), _parse_old_style [(Value.vstr t, Value.vint n)] =
      .error oldStyleTypeMsg) ∧
    (∀ t s : String,
      _parse_new_style [Value.vdict [(Value.vstr "istag", Value.vstr t), (Value.vstr "from", Value.vstr s)]] =
        .ok [{ istag := _parse_istag t, imageFrom := s, envs := [] }]) ∧
    (∀ (t : String) (n : Int),
      _parse_new_style [Value.vdict [(Value.vstr "istag", Value.vstr t), (Value.vstr "from", Value.vint n)]] =
        .error istagFromTypeMsg) ∧
    (∀ (n : Int) (s : String),
      _parse_new_style [Value.vdict [(Value.vstr "istag", Value.vint n), (Value.vstr "from", Value.vstr s)]] =
        .error intIterTypeErrorMsg) ∧
    (∀ s : String,
      _parse_new_style [Value.vdict [(Value.vstr "istag", Value.vlist [Value.vint 1]), (Value.vstr "from", Value.vstr s)]] =
        .ok [{ istag := "[1]:latest", imageFrom := s, envs := [] }]) ∧
    (∀ s : String,
      _parse_new_style [Value.vdict [(Value.vstr "istag", Value.vlist [Value.vstr ":"]), (Value.vstr "from", Value.vstr s)]] =
        .error istagFromTypeMsg) := by
  refine ⟨fun _ _ => rfl, fun _ _ => rfl, fun _ _ => rfl, fun _ _ => rfl, fun _ _ => rfl,
    fun _ _ => rfl, fun s => ?_, fun _ => rfl⟩
  have h : pyRepr (Value.vlist [Value.vint 1]) = "[1]" := by
    simp only [pyRepr, pyReprList]
    rfl
  show Except.ok [ImageSpec.mk (pyRepr (Value.vlist [Value.vint 1]) ++ ":latest") s []] =
    Except.ok [ImageSpec.mk "[1]:latest" s []]
  rw [h]
  rfl

/-- Claim C8: `import_images` parses the whole config before its import loop, so
when parsing fails the error propagates with no `oc` invocation issued (and no
log emitted): the external side-effect state is untouched. -/
theorem import_images_config_error_first (res : String → String → OcResult)
    (config : List (Value × Value)) (env_names st : List String) (e : String)
    (h : parse_config config = .error e) :
    import_images res config env_names st = (.error e, [], []) := by
  unfold import_images
  rw [h]

/-- Witness for C8 at the malformed entry from the spec scenario — a new-style
dict carrying only the tag key and no source key fails with the unknown-syntax
error, and `import_images` propagates it with an empty invocation trace. -/
theorem import_images_config_error_first_witness :
    parse_config [(Value.vstr "images", Value.vlist [Value.vdict [(Value.vstr "istag", Value.vstr "x")]])] =
      .error unknownSyntaxMsg ∧
    import_images res0 [(Value.vstr "images", Value.vlist [Value.vdict [(Value.vstr "istag", Value.vstr "x")]])]
      ["dev"] [] = (.error unknownSyntaxMsg, [], []) :=
  ⟨rfl,
   import_images_config_error_first res0
     [(Value.vstr "images", Value.vlist [Value.vdict [(Value.vstr "istag", Value.vstr "x")]])]
     ["dev"] [] unknownSyntaxMsg rfl⟩

/-- Counterexample to claim C1: when the import invocation fails with diagnostic
text not containing the conflict phrase, no re-tag invocation is issued — but the
error does NOT propagate: the handler catches every `ErrorReturnCode`, so
`do_import` returns normally (`Except.ok`), swallowing the failure (it still logs
the re-tagging warning, unconditionally). -/
theorem do_import_unrelated_error_swallowed_cex :
    do_import [] "foo:latest" "quay.io/x/foo" (OcResult.failure "some unrelated failure") =
      (Except.ok [], [Invocation.importImage "foo:latest" "quay.io/x/foo"],
        [LogEvent.warnRetag "foo:latest"]) := by
  rfl

/-- Claim C1 as amended: when the import invocation fails and the diagnostic text
does not contain the conflict phrase, `do_import` issues no re-tag invocation and
the error is caught and swallowed — the call returns normally with the importer
state unchanged (nothing propagates to the caller). -/
theorem do_import_unrelated_error_no_retag (st : List String) (istag imageFrom stderr : String)
    (h : strContainsSub stderr conflictPhrase = false) :
    do_import st istag imageFrom (.failure stderr) =
      (.ok st, [Invocation.importImage istag imageFrom],
        (if st.contains istag then [LogEvent.warnAlreadyImported istag] else [])
          ++ [LogEvent.warnRetag istag]) := by
  simp [do_import, h]

/-- Witness for the amended C1 at a concrete unrelated diagnostic. -/
theorem do_import_unrelated_error_no_retag_witness :
    strContainsSub "imagestream not found" conflictPhrase = false ∧
    do_import ["other:latest"] "t:latest" "quay.io/t" (.failure "imagestream not found") =
      (.ok ["other:latest"], [Invocation.importImage "t:latest" "quay.io/t"],
        [LogEvent.warnRetag "t:latest"]) :=
  ⟨by decide,
   do_import_unrelated_error_no_retag ["other:latest"] "t:latest" "quay.io/t"
     "imagestream not found" (by decide)⟩

/-- Claim C2 evidence: `do_import` never appends to `imported_istags` — contrary
to the class docstring ("Keeps track of which secrets have been imported so we
don't keep re-importing") no branch records the tag.  The second conjunct shows
the state is returned unchanged for every call; the first evaluates the failing
scenario: a call for "foo:latest" from the empty state returns the empty state
and emits no log, so a repeat call (again from the empty state) emits no
duplicate-import warning. -/
theorem do_import_never_records_tag :
    do_import [] "foo:latest" "quay.io/x/foo:1.0" .success =
      (.ok [], [Invocation.importImage "foo:latest" "quay.io/x/foo:1.0"], []) ∧
    (∀ (st : List String) (istag imageFrom : String) (r : OcResult),
      (do_import st istag imageFrom r).1 = .ok st) := by
  refine ⟨by rfl, fun st istag imageFrom r => ?_⟩
  cases r with
  | success => rfl
  | failure stderr =>
      by_cases h : strContainsSub stderr conflictPhrase = true
      · simp [do_import, h]
      · simp [do_import, h]

/-- Claim C5: when the import invocation fails with diagnostic text containing
the conflict phrase, `do_import` issues exactly one subsequent re-tag invocation
`oc tag --scheduled=True --source=docker <from> <istag>` with the same pair, and
no error propagates (the call returns `Except.ok`). -/
theorem do_import_conflict_retags (st : List String) (istag imageFrom stderr : String)
    (h : strContainsSub stderr conflictPhrase = true) :
    do_import st istag imageFrom (.failure stderr) =
      (.ok st,
        [Invocation.importImage istag imageFrom, Invocation.tagImage imageFrom istag],
        (if st.contains istag then [LogEvent.warnAlreadyImported istag] else [])
          ++ [LogEvent.warnRetag istag]) := by
  simp [do_import, _retag_image, h]

/-- Witness for C5 at a concrete conflicting diagnostic containing the phrase. -/
theorem do_import_conflict_retags_witness :
    strContainsSub "error: use the \x27tag\x27 command if you want to change the source"
      conflictPhrase = true ∧
    do_import [] "t:latest" "quay.io/t"
      (.failure "error: use the \x27tag\x27 command if you want to change the source") =
      (.ok [], [Invocation.importImage "t:latest" "quay.io/t",
        Invocation.tagImage "quay.io/t" "t:latest"], [LogEvent.warnRetag "t:latest"]) :=
  ⟨by decide,
   do_import_conflict_retags [] "t:latest" "quay.io/t"
     "error: use the \x27tag\x27 command if you want to change the source" (by decide)⟩

/-- Claim C6: in the `import_images` loop, a spec whose non-empty environments
list shares no element with the active set is skipped — one info log, no `oc`
invocation, state unchanged — while a spec with an empty environments list is
handed to `do_import` regardless of the active set. -/
theorem import_step_env_gating (res : String → String → OcResult)
    (env_names st : List String) (spec : ImageSpec) :
    (spec.envs ≠ [] → (∀ e ∈ spec.envs, e ∉ env_names) →
      import_step res env_names st spec = (.ok st, [], [LogEvent.infoSkip spec.istag])) ∧
    (spec.envs = [] →
      import_step res env_names st spec =
        do_import st spec.istag spec.imageFrom (res spec.istag spec.imageFrom)) := by
  constructor
  · intro hne hdisj
    have hie : spec.envs.isEmpty = false := by
      simpa [List.isEmpty_iff] using hne
    have hany : spec.envs.any (fun e => env_names.contains e) = false := by
      simp only [List.any_eq_false]
      intro e he
      simpa using hdisj e he
    have hcond : (spec.envs.isEmpty || spec.envs.any (fun e => env_names.contains e)) = false := by
      rw [hie, hany]
      rfl
    simp only [import_step, hcond, Bool.false_eq_true, if_false]
  · intro he
    simp [import_step, he]

/-- Witness for C6: an image gated to stage/prod is skipped under the active set
containing only dev, and an ungated image goes to `do_import` under that same set. -/
theorem import_step_env_gating_witness :
    import_step res0 ["dev"] [] { istag := "bar:latest", imageFrom := "docker.io/y/bar", envs := ["stage", "prod"] } =
      (.ok [], [], [LogEvent.infoSkip "bar:latest"]) ∧
    import_step res0 ["dev"] [] { istag := "foo:latest", imageFrom := "quay.io/x/foo", envs := [] } =
      do_import [] "foo:latest" "quay.io/x/foo" (res0 "foo:latest" "quay.io/x/foo") :=
  ⟨(import_step_env_gating res0 ["dev"] []
      { istag := "bar:latest", imageFrom := "docker.io/y/bar", envs := ["stage", "prod"] }).1
      (by decide) (by decide),
   (import_step_env_gating res0 ["dev"] []
      { istag := "foo:latest", imageFrom := "quay.io/x/foo", envs := [] }).2 rfl⟩
